import Mathlib

/-!
Verification of `src/task-manager/redis-tools/redis_group_query.py`.

The script is embedded shallowly: the Redis client is a structure of
fallible oracles (`Except String` models a raised exception carrying its
message), each `print(...)` call becomes one element of an output list
(embedded newline characters are kept inside the string, as in the
f-strings of the source), and Python dicts become association lists with
Python-dict insertion semantics.  The Python standard-library `json`
module, used by `display_group_info`, is modelled by an executable
recursive-descent parser (`json_loads`) and an `indent=2` serializer
(`json_dumps`), following the documented behaviour of `json.loads` /
`json.dumps` (leading/trailing whitespace tolerance, last-wins duplicate
object keys, `ensure_ascii` escaping; numbers are kept as their lexemes).
-/

/-- The opening curly brace character. -/
def lbrace : Char := Char.ofNat 123

/-- The closing curly brace character. -/
def rbrace : Char := Char.ofNat 125

/-- Parsed JSON values.  Numbers keep their source lexeme. -/
inductive JValue where
  | null : JValue
  | bool (b : Bool) : JValue
  | num (lex : String) : JValue
  | str (s : String) : JValue
  | arr (items : List JValue) : JValue
  | obj (fields : List (String × JValue)) : JValue

/-- JSON whitespace characters accepted between tokens by `json.loads`. -/
def jWs (c : Char) : Bool := c = ' ' || c = '\t' || c = '\n' || c = '\r'

/-- Drop leading JSON whitespace. -/
def skipWs : List Char → List Char
  | [] => []
  | c :: cs => if jWs c then skipWs cs else c :: cs

/-- Value of a hexadecimal digit, if the character is one. -/
def hexVal (c : Char) : Option Nat :=
  if c.isDigit then some (c.toNat - 48)
  else if 'a' ≤ c ∧ c ≤ 'f' then some (c.toNat - 87)
  else if 'A' ≤ c ∧ c ≤ 'F' then some (c.toNat - 55)
  else none

/-- Parse the body of a JSON string (the opening quote already consumed),
handling the escape sequences `json.loads` accepts and rejecting raw
control characters, as the strict decoder does. -/
def jparseStr : Nat → List Char → String → Option (String × List Char)
  | 0, _, _ => none
  | _ + 1, [], _ => none
  | fuel + 1, c :: cs, acc =>
    if c = '"' then some (acc, cs)
    else if c = '\\' then
      match cs with
      | [] => none
      | e :: cs2 =>
        if e = '"' then jparseStr fuel cs2 (acc.push '"')
        else if e = '\\' then jparseStr fuel cs2 (acc.push '\\')
        else if e = '/' then jparseStr fuel cs2 (acc.push '/')
        else if e = 'b' then jparseStr fuel cs2 (acc.push (Char.ofNat 8))
        else if e = 'f' then jparseStr fuel cs2 (acc.push (Char.ofNat 12))
        else if e = 'n' then jparseStr fuel cs2 (acc.push '\n')
        else if e = 'r' then jparseStr fuel cs2 (acc.push '\r')
        else if e = 't' then jparseStr fuel cs2 (acc.push '\t')
        else if e = 'u' then
          match cs2 with
          | h1 :: h2 :: h3 :: h4 :: cs3 =>
            match hexVal h1, hexVal h2, hexVal h3, hexVal h4 with
            | some a, some b, some c2, some d =>
                jparseStr fuel cs3 (acc.push (Char.ofNat (((a * 16 + b) * 16 + c2) * 16 + d)))
            | _, _, _, _ => none
          | _ => none
        else none
    else if c.toNat < 32 then none
    else jparseStr fuel cs (acc.push c)

/-- Take the longest prefix of decimal digits. -/
def takeDigits : List Char → List Char × List Char
  | [] => ([], [])
  | c :: cs =>
    if c.isDigit then
      let (ds, r) := takeDigits cs
      (c :: ds, r)
    else ([], c :: cs)

/-- Parse an optional exponent part of a JSON number, appending to the lexeme. -/
def jparseNumExp (acc : String) (cs : List Char) : Option (String × List Char) :=
  match cs with
  | [] => some (acc, [])
  | c :: r =>
    if c = 'e' ∨ c = 'E' then
      match r with
      | [] => none
      | s :: r2 =>
        if s = '+' ∨ s = '-' then
          match takeDigits r2 with
          | ([], _) => none
          | (ds, r3) => some (acc.push c ++ String.mk (s :: ds), r3)
        else
          match takeDigits r with
          | ([], _) => none
          | (ds, r3) => some (acc.push c ++ String.mk ds, r3)
    else some (acc, cs)

/-- Parse an optional fraction part of a JSON number, then the exponent. -/
def jparseNumFrac (acc : String) (cs : List Char) : Option (String × List Char) :=
  match cs with
  | '.' :: r =>
    match takeDigits r with
    | ([], _) => none
    | (ds, r2) => jparseNumExp (acc ++ "." ++ String.mk ds) r2
  | _ => jparseNumExp acc cs

/-- Parse a JSON number per the JSON grammar, returning its lexeme. -/
def jparseNum (cs : List Char) : Option (String × List Char) :=
  let (negStr, cs1) : String × List Char :=
    match cs with
    | '-' :: r => ("-", r)
    | _ => ("", cs)
  match cs1 with
  | [] => none
  | c :: r =>
    if c = '0' then jparseNumFrac (negStr ++ "0") r
    else if c.isDigit then
      let (ds, r2) := takeDigits (c :: r)
      jparseNumFrac (negStr ++ String.mk ds) r2
    else none

/-- Consume an exact literal character sequence. -/
def stripLit : List Char → List Char → Option (List Char)
  | [], cs => some cs
  | _ :: _, [] => none
  | l :: ls, c :: cs => if c = l then stripLit ls cs else none

/-- Python-dict insertion: an existing key keeps its position and takes the
new value; a new key is appended.  `json.loads` builds objects this way, so
duplicate keys resolve to the last occurrence. -/
def assocUpdate (d : List (String × JValue)) (k : String) (v : JValue) :
    List (String × JValue) :=
  if d.any (fun p => p.1 = k) then d.map (fun p => if p.1 = k then (k, v) else p)
  else d ++ [(k, v)]

mutual

/-- Recursive-descent parser for one JSON value (model of `json.loads`'s
grammar, including the nonstandard `NaN` / `Infinity` / `-Infinity`
constants Python accepts by default). -/
def jparseValue : Nat → List Char → Option (JValue × List Char)
  | 0, _ => none
  | fuel + 1, cs0 =>
    match skipWs cs0 with
    | [] => none
    | c :: rest =>
      if c = lbrace then
        match skipWs rest with
        | [] => none
        | d :: r2 =>
          if d = rbrace then some (.obj [], r2)
          else
            match jparseObjItems fuel [] rest with
            | some (fs, r3) => some (.obj fs, r3)
            | none => none
      else if c = '[' then
        match skipWs rest with
        | [] => none
        | d :: r2 =>
          if d = ']' then some (.arr [], r2)
          else
            match jparseArrItems fuel [] rest with
            | some (xs, r3) => some (.arr xs, r3)
            | none => none
      else if c = '"' then
        match jparseStr (rest.length + 1) rest "" with
        | some (s, r2) => some (.str s, r2)
        | none => none
      else if c = 't' then
        match stripLit ['r', 'u', 'e'] rest with
        | some r2 => some (.bool true, r2)
        | none => none
      else if c = 'f' then
        match stripLit ['a', 'l', 's', 'e'] rest with
        | some r2 => some (.bool false, r2)
        | none => none
      else if c = 'n' then
        match stripLit ['u', 'l', 'l'] rest with
        | some r2 => some (.null, r2)
        | none => none
      else if c = 'N' then
        match stripLit ['a', 'N'] rest with
        | some r2 => some (.num "NaN", r2)
        | none => none
      else if c = 'I' then
        match stripLit ['n', 'f', 'i', 'n', 'i', 't', 'y'] rest with
        | some r2 => some (.num "Infinity", r2)
        | none => none
      else if c = '-' then
        match rest with
        | 'I' :: r2 =>
          match stripLit ['n', 'f', 'i', 'n', 'i', 't', 'y'] r2 with
          | some r3 => some (.num "-Infinity", r3)
          | none => none
        | _ =>
          match jparseNum (c :: rest) with
          | some (lex, r2) => some (.num lex, r2)
          | none => none
      else if c.isDigit then
        match jparseNum (c :: rest) with
        | some (lex, r2) => some (.num lex, r2)
        | none => none
      else none

/-- Parse the members of a JSON object after the opening brace (nonempty case). -/
def jparseObjItems : Nat → List (String × JValue) → List Char →
    Option (List (String × JValue) × List Char)
  | 0, _, _ => none
  | fuel + 1, acc, cs =>
    match skipWs cs with
    | '"' :: r =>
      match jparseStr (r.length + 1) r "" with
      | none => none
      | some (k, r2) =>
        match skipWs r2 with
        | ':' :: r3 =>
          match jparseValue fuel r3 with
          | none => none
          | some (v, r4) =>
            let acc2 := assocUpdate acc k v
            match skipWs r4 with
            | [] => none
            | c :: r5 =>
              if c = ',' then jparseObjItems fuel acc2 r5
              else if c = rbrace then some (acc2, r5)
              else none
        | _ => none
    | _ => none

/-- Parse the elements of a JSON array after the opening bracket (nonempty case). -/
def jparseArrItems : Nat → List JValue → List Char →
    Option (List JValue × List Char)
  | 0, _, _ => none
  | fuel + 1, acc, cs =>
    match jparseValue fuel cs with
    | none => none
    | some (v, r) =>
      match skipWs r with
      | ',' :: r2 => jparseArrItems fuel (acc ++ [v]) r2
      | ']' :: r2 => some (acc ++ [v], r2)
      | _ => none

end

/-- Model of `json.loads`: parse a complete JSON document, allowing only
trailing whitespace.  `none` models a raised `json.JSONDecodeError`. -/
def json_loads (s : String) : Option JValue :=
  match jparseValue (2 * s.length + 8) s.data with
  | some (v, rest) => if (skipWs rest).isEmpty then some v else none
  | none => none

/-- Hexadecimal digit character (lower case), as `json.dumps` emits. -/
def hexDigit (n : Nat) : Char :=
  if n < 10 then Char.ofNat (48 + n) else Char.ofNat (87 + (n - 10))

/-- Four-digit hexadecimal rendering for `\uXXXX` escapes. -/
def hex4 (n : Nat) : String :=
  String.mk [hexDigit (n / 4096 % 16), hexDigit (n / 256 % 16),
    hexDigit (n / 16 % 16), hexDigit (n % 16)]

/-- Escape one character the way `json.dumps` (default `ensure_ascii=True`)
does inside a string literal. -/
def jescapeChar (c : Char) : String :=
  if c = '"' then "\\\""
  else if c = '\\' then "\\\\"
  else if c = '\n' then "\\n"
  else if c = '\r' then "\\r"
  else if c = '\t' then "\\t"
  else if c = Char.ofNat 8 then "\\b"
  else if c = Char.ofNat 12 then "\\f"
  else if c.toNat < 32 ∨ 126 < c.toNat then "\\u" ++ hex4 c.toNat
  else String.singleton c

/-- Serialize a string as a JSON string literal. -/
def jquote (s : String) : String :=
  "\"" ++ String.join (s.data.map jescapeChar) ++ "\""

/-- The indentation prefix at nesting level `lvl` for `indent=2`. -/
def indentOf (lvl : Nat) : String := String.mk (List.replicate (2 * lvl) ' ')

mutual

/-- Model of `json.dumps(v, indent=2)` at nesting level `lvl`: containers
open with a newline, indent every element by two more spaces, separate
elements with a comma plus newline, and close on a line indented at the
container's own level; empty containers collapse. -/
def jdumps : JValue → Nat → String
  | .null, _ => "null"
  | .bool b, _ => if b then "true" else "false"
  | .num lex, _ => lex
  | .str s, _ => jquote s
  | .arr [], _ => "[]"
  | .arr (x :: xs), lvl =>
      "[\n" ++
        String.intercalate ",\n"
          ((jdumpsList (x :: xs) (lvl + 1)).map (fun it => indentOf (lvl + 1) ++ it)) ++
        "\n" ++ indentOf lvl ++ "]"
  | .obj [], _ => "\x7b\x7d"
  | .obj (f :: fs), lvl =>
      "\x7b\n" ++
        String.intercalate ",\n"
          ((jdumpsObj (f :: fs) (lvl + 1)).map (fun it => indentOf (lvl + 1) ++ it)) ++
        "\n" ++ indentOf lvl ++ "\x7d"

/-- Serialize each array element at the given level. -/
def jdumpsList : List JValue → Nat → List String
  | [], _ => []
  | x :: xs, lvl => jdumps x lvl :: jdumpsList xs lvl

/-- Serialize each object member at the given level (`": "` key separator,
as `json.dumps` uses when `indent` is given). -/
def jdumpsObj : List (String × JValue) → Nat → List String
  | [], _ => []
  | (k, v) :: fs, lvl => (jquote k ++ ": " ++ jdumps v lvl) :: jdumpsObj fs lvl

end

/-- Model of the call `json.dumps(parsed_value, indent=2)` at line 118
of the source. -/
def json_dumps (v : JValue) : String := jdumps v 0

/-- A Python value as it appears in the `'value'` slot of the dict built
by `get_group_info`.  List elements may be plain strings (from `lrange`)
or `(member, score)` tuples (from `zrange(..., withscores=True)`; the
score is kept as its printed representation). -/
inductive PyItem where
  | s (x : String) : PyItem
  | pair (member score : String) : PyItem
deriving DecidableEq, Repr

/-- How a Python f-string renders a list/set element: strings print as
themselves, tuples as `('member', score)`. -/
def pyItemStr : PyItem → String
  | .s x => x
  | .pair m sc => "(\x27" ++ m ++ "\x27, " ++ sc ++ ")"

/-- The `'value'` slot of the dict built by `get_group_info`: a scalar
string (`get`, or the `'Unknown type'` marker), a dict (`hgetall`), a list
(`lrange` / `zrange`), or a set (`smembers`). -/
inductive PyValue where
  | str (s : String) : PyValue
  | dict (fields : List (String × String)) : PyValue
  | list (items : List PyItem) : PyValue
  | set (items : List String) : PyValue
deriving DecidableEq, Repr

/-- The dict `get_group_info` returns for one key: either
`{'type': tag, 'value': v}` (constructor `tagged`) or, from the `except`
branch, `{'error': msg}` — which has *no* `'type'` key. -/
inductive GroupInfo where
  | tagged (tag : String) (value : PyValue) : GroupInfo
  | error (msg : String) : GroupInfo
deriving DecidableEq, Repr

/-- The Redis client, as the script uses it: each method either returns a
value or raises an exception carrying a message (`Except.error`). -/
structure Redis where
  ping : Except String Unit
  keys : String → Except String (List String)
  type : String → Except String String
  get : String → Except String String
  hgetall : String → Except String (List (String × String))
  lrange : String → Except String (List String)
  smembers : String → Except String (List String)
  zrange : String → Except String (List (String × String))

/-- `connect_to_redis` (lines 12-28): construct the client, `ping` it,
print the banner and return it; on any exception print the connection
error and return `None`.  First component: the printed lines. -/
def connect_to_redis (r : Redis) (host port : String) :
    List String × Option Redis :=
  match r.ping with
  | .ok _ => (["Connected to Redis at " ++ host ++ ":" ++ port], some r)
  | .error e => (["Error connecting to Redis: " ++ e], none)

/-- `get_all_keys` (lines 31-38): `r.keys(pattern)`; on exception print
`Error getting keys: …` and return the empty list. -/
def get_all_keys (r : Redis) (pattern : String) : List String × List String :=
  match r.keys pattern with
  | .ok ks => ([], ks)
  | .error e => (["Error getting keys: " ++ e], [])

/-- `get_group_info` (lines 41-64): fetch the key's storage type, then
dispatch to the type-appropriate accessor.  Any exception anywhere in the
`try` block yields `{'error': str(e)}`.  An unrecognized storage type
yields `{'type': key_type, 'value': 'Unknown type'}` — the tag is the raw
fetched type string, not a fixed marker. -/
def get_group_info (r : Redis) (key : String) : GroupInfo :=
  match r.type key with
  | .error e => .error e
  | .ok kt =>
    if kt = "string" then
      match r.get key with
      | .error e => .error e
      | .ok v => .tagged "string" (.str v)
    else if kt = "hash" then
      match r.hgetall key with
      | .error e => .error e
      | .ok v => .tagged "hash" (.dict v)
    else if kt = "list" then
      match r.lrange key with
      | .error e => .error e
      | .ok v => .tagged "list" (.list (v.map PyItem.s))
    else if kt = "set" then
      match r.smembers key with
      | .error e => .error e
      | .ok v => .tagged "set" (.set v)
    else if kt = "zset" then
      match r.zrange key with
      | .error e => .error e
      | .ok v => .tagged "zset" (.list (v.map fun p => PyItem.pair p.1 p.2))
    else .tagged kt (.str "Unknown type")

/-- Python-dict assignment `all_groups[key] = group_info`: an existing key
keeps its position and takes the new value, a new key is appended. -/
def dictInsert (d : List (String × GroupInfo)) (k : String) (v : GroupInfo) :
    List (String × GroupInfo) :=
  if d.any (fun p => p.1 = k) then d.map (fun p => if p.1 = k then (k, v) else p)
  else d ++ [(k, v)]

/-- The body of `query_groups`'s `for pattern in patterns` loop
(lines 70-83), acting on the pair (printed lines so far, `all_groups`). -/
def processPattern (r : Redis) (st : List String × List (String × GroupInfo))
    (pattern : String) : List String × List (String × GroupInfo) :=
  let kres := get_all_keys r pattern
  let out := st.1 ++ ["\nSearching for keys matching pattern: " ++ pattern] ++ kres.1
  if kres.2.isEmpty then
    (out ++ ["No keys found for pattern: " ++ pattern], st.2)
  else
    (out ++ ["Found " ++ toString kres.2.length ++ " keys for pattern: " ++ pattern],
     kres.2.foldl (fun all key => dictInsert all key (get_group_info r key)) st.2)

/-- `query_groups` from an arbitrary intermediate state. -/
def query_groups_from (r : Redis) (patterns : List String)
    (st : List String × List (String × GroupInfo)) :
    List String × List (String × GroupInfo) :=
  patterns.foldl (processPattern r) st

/-- `query_groups` (lines 67-85): scan every pattern, accumulating
`all_groups` (a dict keyed by key name) and the printed lines. -/
def query_groups (r : Redis) (patterns : List String) :
    List String × List (String × GroupInfo) :=
  query_groups_from r patterns ([], [])

/-- The 40-dash separator printed after each entry (`"-" * 40`). -/
def dashSep : String := "----------------------------------------"

/-- Python's `value.startswith(c)` for a single character: true exactly
when the string is nonempty and its first character is `c`. -/
def pyStartsWith (s : String) (c : Char) : Bool :=
  match s.data with
  | [] => false
  | d :: _ => d = c

/-- Lines 113-123 of `display_group_info`, for a scalar string value:
attempt a JSON parse only when the first character is `'{'` or `'['`;
print the pretty-printed JSON on success, the raw string otherwise. -/
def renderStringValue (value : String) : List String :=
  if pyStartsWith value lbrace || pyStartsWith value '[' then
    match json_loads value with
    | some parsed => ["Value (JSON):", json_dumps parsed]
    | none => ["  Value: " ++ value]
  else ["  Value: " ++ value]

/-- Lines 103-125: dispatch on the runtime type of `info['value']`
(dict, then list/set, then str). -/
def displayValue : PyValue → List String
  | .dict fields => "Value:" :: fields.map (fun p => "  " ++ p.1 ++ ": " ++ p.2)
  | .list items => "Value:" :: items.map (fun it => "  - " ++ pyItemStr it)
  | .set items => "Value:" :: items.map (fun it => "  - " ++ it)
  | .str s => renderStringValue s

/-- One iteration of `display_group_info`'s loop (lines 96-127).  The
second print is `f"Type: {info['type']}"`: on an error entry the dict has
no `'type'` key, so the subscript raises `KeyError: 'type'` after the
`Key:` line was printed and before the `'error' in info` test is ever
reached.  The uncaught exception is the second component. -/
def displayEntry (key : String) (info : GroupInfo) :
    List String × Option String :=
  match info with
  | .error _ => (["\nKey: " ++ key], some "KeyError: \x27type\x27")
  | .tagged tag v =>
    (["\nKey: " ++ key, "Type: " ++ tag] ++ displayValue v ++ [dashSep], none)

/-- Run `display_group_info`'s loop over the entries, stopping at the
first uncaught exception. -/
def displayEntries : List (String × GroupInfo) → List String × Option String
  | [] => ([], none)
  | (k, info) :: rest =>
    match displayEntry k info with
    | (out, some e) => (out, some e)
    | (out, none) =>
      let (out2, e) := displayEntries rest
      (out ++ out2, e)

/-- `display_group_info` (lines 88-127): empty dict prints the single
`No group information found` message; otherwise the entry-count header
followed by each entry. -/
def display_group_info (groups : List (String × GroupInfo)) :
    List String × Option String :=
  if groups.isEmpty then (["\nNo group information found in Redis."], none)
  else
    let (out, e) := displayEntries groups
    (("\n--- Found " ++ toString groups.length ++ " group-related entries ---") :: out, e)

/-- The four default patterns of lines 73 and 150. -/
def defaultPatterns : List String := ["group:*", "groups:*", "*:group*", "*:groups*"]

/-- Lines 146-150: `args.patterns` is `None` (here: `[]`) when no
`--pattern` flag was given, in which case the defaults are used;
otherwise the given list, in order. -/
def choosePatterns (argPatterns : List String) : List String :=
  if argPatterns.isEmpty then defaultPatterns else argPatterns

/-- `main` (lines 130-159; named `mainProg` since Lean reserves `main`): connect (returning early on failure), choose
the patterns, scan, display.  Output lines paired with the uncaught
exception, if any, of the display pass. -/
def mainProg (r : Redis) (host port : String) (argPatterns : List String) :
    List String × Option String :=
  let c := connect_to_redis r host port
  match c.2 with
  | none => (c.1, none)
  | some rc =>
    let q := query_groups rc (choosePatterns argPatterns)
    let d := display_group_info q.2
    (c.1 ++ q.1 ++ d.1, d.2)

/-! ## Concrete store instances used in witnesses and counterexamples -/

/-- A store whose connection probe fails. -/
def rFail : Redis :=
  { ping := .error "Connection refused"
    keys := fun _ => .ok []
    type := fun _ => .ok "none"
    get := fun _ => .ok ""
    hgetall := fun _ => .ok []
    lrange := fun _ => .ok []
    smembers := fun _ => .ok []
    zrange := fun _ => .ok [] }

/-- A reachable store with no keys at all. -/
def rOk : Redis :=
  { ping := .ok ()
    keys := fun _ => .ok []
    type := fun _ => .ok "none"
    get := fun _ => .ok ""
    hgetall := fun _ => .ok []
    lrange := fun _ => .ok []
    smembers := fun _ => .ok []
    zrange := fun _ => .ok [] }

/-- A reachable store whose key listing always raises. -/
def rKeysBoom : Redis :=
  { ping := .ok ()
    keys := fun _ => .error "ERR scan failed"
    type := fun _ => .ok "none"
    get := fun _ => .ok ""
    hgetall := fun _ => .ok []
    lrange := fun _ => .ok []
    smembers := fun _ => .ok []
    zrange := fun _ => .ok [] }

/-- A reachable store holding one key of the unrecognized storage type
`stream`. -/
def rStream : Redis :=
  { ping := .ok ()
    keys := fun p => if p = "group:*" then .ok ["group:s"] else .ok []
    type := fun _ => .ok "stream"
    get := fun _ => .ok ""
    hgetall := fun _ => .ok []
    lrange := fun _ => .ok []
    smembers := fun _ => .ok []
    zrange := fun _ => .ok [] }

/-- A store where the key `a:k` matches two different patterns. -/
def rW : Redis :=
  { ping := .ok ()
    keys := fun p =>
      if p = "a:*" then .ok ["a:k"] else if p = "*:k" then .ok ["a:k"] else .ok []
    type := fun _ => .ok "string"
    get := fun _ => .ok "v"
    hgetall := fun _ => .ok []
    lrange := fun _ => .ok []
    smembers := fun _ => .ok []
    zrange := fun _ => .ok [] }

/-- A store with two keys under `group:*`: the type fetch for `group:a`
raises, `group:b` is a plain string key. -/
def rC1 : Redis :=
  { ping := .ok ()
    keys := fun p => if p = "group:*" then .ok ["group:a", "group:b"] else .ok []
    type := fun k => if k = "group:a" then .error "boom" else .ok "string"
    get := fun _ => .ok "x"
    hgetall := fun _ => .ok []
    lrange := fun _ => .ok []
    smembers := fun _ => .ok []
    zrange := fun _ => .ok [] }

/-! ## Claim theorems -/

/-- C10: when the result mapping is empty, `display_group_info` prints the
single `No group information found in Redis.` message and returns, with no
entry-count header and no per-key output. -/
theorem c10_empty_display :
    display_group_info [] = (["\nNo group information found in Redis."], none) := rfl

/-- C7: a hash-tagged value renders as exactly one `field: value` line per
field; in particular the hash `{a: 1, b: 2}` yields the line `  a: 1` for
field `a` and the line `  b: 2` for field `b`, and nothing else. -/
theorem c7_hash_one_line_per_field (key : String) (fields : List (String × String)) :
    displayEntry key (GroupInfo.tagged "hash" (PyValue.dict fields)) =
      (["\nKey: " ++ key, "Type: hash", "Value:"] ++
        fields.map (fun p => "  " ++ p.1 ++ ": " ++ p.2) ++ [dashSep], none)
    ∧ displayValue (PyValue.dict [("a", "1"), ("b", "2")]) =
        ["Value:", "  a: 1", "  b: 2"] := by
  constructor
  · simp [displayEntry, displayValue]
  · rfl

/-- C4: if the connection probe fails, `connect_to_redis` prints the
connection error and returns `None`, and `main` returns early with that
single line of output — independent of every other oracle of the store, so
no pattern scan, key fetch or reconnection is ever attempted. -/
theorem c4_connect_failure (r : Redis) (e : String) (host port : String)
    (args : List String) (h : r.ping = .error e) :
    connect_to_redis r host port = (["Error connecting to Redis: " ++ e], none)
    ∧ mainProg r host port args = (["Error connecting to Redis: " ++ e], none) := by
  constructor
  · simp [connect_to_redis, h]
  · simp [mainProg, connect_to_redis, h]

/-- Witness for C4 at a concrete failing store. -/
theorem c4_connect_failure_witness :
    mainProg rFail "localhost" "6379" [] =
      (["Error connecting to Redis: Connection refused"], none) :=
  (c4_connect_failure rFail "Connection refused" "localhost" "6379" [] rfl).2

/-- C5: with no `--pattern` flags the program scans exactly the four
default patterns in their declared order; with flags given, exactly the
given patterns in the given order.  After a successful connection, `main`
hands `choosePatterns args` to `query_groups`. -/
theorem c5_default_patterns (r : Redis) (host port : String) (args : List String)
    (h : r.ping = .ok ()) :
    choosePatterns [] = ["group:*", "groups:*", "*:group*", "*:groups*"]
    ∧ (args ≠ [] → choosePatterns args = args)
    ∧ mainProg r host port args =
        (("Connected to Redis at " ++ host ++ ":" ++ port) ::
          ((query_groups r (choosePatterns args)).1 ++
            (display_group_info (query_groups r (choosePatterns args)).2).1),
         (display_group_info (query_groups r (choosePatterns args)).2).2) := by
  refine ⟨rfl, fun hne => ?_, ?_⟩
  · cases args with
    | nil => exact absurd rfl hne
    | cons a l => rfl
  · simp [mainProg, connect_to_redis, h]

/-- Witness for C5: a given pattern list is used as-is, and the run on a
concrete reachable store goes through the scan and display passes. -/
theorem c5_default_patterns_witness :
    choosePatterns ["x:*"] = ["x:*"]
    ∧ mainProg rOk "localhost" "6379" [] =
        (("Connected to Redis at " ++ "localhost" ++ ":" ++ "6379") ::
          ((query_groups rOk (choosePatterns [])).1 ++
            (display_group_info (query_groups rOk (choosePatterns [])).2).1),
         (display_group_info (query_groups rOk (choosePatterns [])).2).2) :=
  ⟨(c5_default_patterns rOk "localhost" "6379" ["x:*"] rfl).2.1 (by simp),
   (c5_default_patterns rOk "localhost" "6379" [] rfl).2.2⟩

/-! ## Scan-loop lemmas shared by C6 and C8 -/

/-- The mapping component of one scan iteration depends only on the
incoming mapping and the listed keys. -/
lemma processPattern_snd (r : Redis) (st : List String × List (String × GroupInfo))
    (p : String) :
    (processPattern r st p).2 =
      if (get_all_keys r p).2.isEmpty then st.2
      else (get_all_keys r p).2.foldl
        (fun all key => dictInsert all key (get_group_info r key)) st.2 := by
  unfold processPattern
  dsimp only
  split <;> rfl

/-- Two states with the same mapping component step to the same mapping. -/
lemma processPattern_snd_congr (r : Redis) (st st' : List String × List (String × GroupInfo))
    (p : String) (h : st.2 = st'.2) :
    (processPattern r st p).2 = (processPattern r st' p).2 := by
  rw [processPattern_snd, processPattern_snd, h]

/-- The final mapping of the scan depends only on the initial mapping. -/
lemma query_groups_from_snd_congr (r : Redis) (ps : List String) :
    ∀ st st' : List String × List (String × GroupInfo), st.2 = st'.2 →
      (query_groups_from r ps st).2 = (query_groups_from r ps st').2 := by
  induction ps with
  | nil => intro st st' h; simpa [query_groups_from] using h
  | cons p ps ih =>
    intro st st' h
    simp only [query_groups_from, List.foldl_cons]
    exact ih _ _ (processPattern_snd_congr r st st' p h)

/-- Scanning a concatenation is scanning the pieces in sequence. -/
lemma query_groups_from_append (r : Redis) (ps1 ps2 : List String)
    (st : List String × List (String × GroupInfo)) :
    query_groups_from r (ps1 ++ ps2) st =
      query_groups_from r ps2 (query_groups_from r ps1 st) := by
  simp [query_groups_from, List.foldl_append]

/-- A pattern whose key listing comes back empty contributes nothing to
the result mapping, wherever it sits in the pattern list. -/
lemma query_groups_from_skip (r : Redis) (p : String) (ps1 ps2 : List String)
    (st : List String × List (String × GroupInfo))
    (hk : (get_all_keys r p).2 = []) :
    (query_groups_from r (ps1 ++ p :: ps2) st).2 =
      (query_groups_from r (ps1 ++ ps2) st).2 := by
  rw [query_groups_from_append, query_groups_from_append]
  have hstep : (processPattern r (query_groups_from r ps1 st) p).2 =
      (query_groups_from r ps1 st).2 := by
    rw [processPattern_snd, hk]
    rfl
  calc (query_groups_from r (p :: ps2) (query_groups_from r ps1 st)).2
      = (query_groups_from r ps2 (processPattern r (query_groups_from r ps1 st) p)).2 := by
        simp [query_groups_from]
    _ = (query_groups_from r ps2 (query_groups_from r ps1 st)).2 :=
        query_groups_from_snd_congr r ps2 _ _ (by rw [hstep])

/-- C6: a pattern whose key listing returns zero keys makes the loop print
the `No keys found` message, add nothing to the result mapping, and
continue with the next pattern. -/
theorem c6_zero_keys (r : Redis) (p : String) (ps1 ps2 : List String)
    (st : List String × List (String × GroupInfo)) (h : r.keys p = .ok []) :
    processPattern r st p =
      (st.1 ++ ["\nSearching for keys matching pattern: " ++ p,
        "No keys found for pattern: " ++ p], st.2)
    ∧ query_groups_from r (p :: ps2) st = query_groups_from r ps2 (processPattern r st p)
    ∧ (query_groups_from r (ps1 ++ p :: ps2) st).2 =
        (query_groups_from r (ps1 ++ ps2) st).2 := by
  have hk : get_all_keys r p = ([], []) := by simp [get_all_keys, h]
  refine ⟨?_, rfl, query_groups_from_skip r p ps1 ps2 st (by rw [hk])⟩
  simp [processPattern, hk]

/-- Witness for C6 at a concrete store with no keys. -/
theorem c6_zero_keys_witness :
    processPattern rOk ([], []) "group:*" =
      ((([], []) : List String × List (String × GroupInfo)).1 ++
        ["\nSearching for keys matching pattern: " ++ "group:*",
         "No keys found for pattern: " ++ "group:*"],
       (([], []) : List String × List (String × GroupInfo)).2)
    ∧ (query_groups_from rOk (["groups:*"] ++ "group:*" :: []) ([], [])).2 =
        (query_groups_from rOk (["groups:*"] ++ []) ([], [])).2 :=
  ⟨(c6_zero_keys rOk "group:*" ["groups:*"] [] ([], []) rfl).1,
   (c6_zero_keys rOk "group:*" ["groups:*"] [] ([], []) rfl).2.2⟩

/-- C8: if the key-listing call itself raises, the exception is caught,
`Error getting keys` is printed, and the pattern then behaves exactly like
one with zero keys: the `No keys found` message follows, nothing is added
to the result mapping, and the scan continues. -/
theorem c8_listing_failure (r : Redis) (p e : String) (ps1 ps2 : List String)
    (st : List String × List (String × GroupInfo)) (h : r.keys p = .error e) :
    get_all_keys r p = (["Error getting keys: " ++ e], [])
    ∧ processPattern r st p =
        (st.1 ++ ["\nSearching for keys matching pattern: " ++ p,
          "Error getting keys: " ++ e,
          "No keys found for pattern: " ++ p], st.2)
    ∧ (query_groups_from r (ps1 ++ p :: ps2) st).2 =
        (query_groups_from r (ps1 ++ ps2) st).2 := by
  have hk : get_all_keys r p = (["Error getting keys: " ++ e], []) := by
    simp [get_all_keys, h]
  refine ⟨hk, ?_, query_groups_from_skip r p ps1 ps2 st (by rw [hk])⟩
  simp [processPattern, hk]

/-- Witness for C8 at a concrete store whose listing raises. -/
theorem c8_listing_failure_witness :
    get_all_keys rKeysBoom "group:*" = (["Error getting keys: " ++ "ERR scan failed"], [])
    ∧ (query_groups_from rKeysBoom (["groups:*"] ++ "group:*" :: []) ([], [])).2 =
        (query_groups_from rKeysBoom (["groups:*"] ++ []) ([], [])).2 :=
  ⟨(c8_listing_failure rKeysBoom "group:*" "ERR scan failed" ["groups:*"] [] ([], []) rfl).1,
   (c8_listing_failure rKeysBoom "group:*" "ERR scan failed" ["groups:*"] [] ([], []) rfl).2.2⟩

/-! ## C2: the shape of `get_group_info` results -/

/-- C2 counterexample: a key of storage type `stream` gets the raw tag
`stream` — with the literal payload `Unknown type` — so its tag is not
drawn from the claimed set, and in particular is not `unknown`. -/
theorem c2_tag_set_counterexample :
    get_group_info rStream "group:s" =
      GroupInfo.tagged "stream" (PyValue.str "Unknown type")
    ∧ "stream" ∉ ["string", "hash", "list", "set", "sorted-set", "error", "unknown"]
    ∧ get_group_info rStream "group:s" ≠
        GroupInfo.tagged "unknown" (PyValue.str "Unknown type") :=
  ⟨rfl, by decide, by decide⟩

/-- C2 amended: every `get_group_info` result is either an error entry
`{error: msg}` (which carries no type tag at all), or a tagged entry whose
tag is exactly the storage type the store reported; when that type is none
of the five recognized ones the payload is the literal `Unknown type`
marker (the tag stays the raw type name, never `unknown`). -/
theorem c2_type_tags (r : Redis) (key : String) :
    (∃ e, get_group_info r key = GroupInfo.error e)
    ∨ (∃ t v, get_group_info r key = GroupInfo.tagged t v
        ∧ r.type key = Except.ok t
        ∧ (t ∈ (["string", "hash", "list", "set", "zset"] : List String)
           ∨ v = PyValue.str "Unknown type")) := by
  cases hT : r.type key with
  | error e => exact Or.inl ⟨e, by simp [get_group_info, hT]⟩
  | ok kt =>
    by_cases h1 : kt = "string"
    · subst h1
      cases hG : r.get key with
      | error e => exact Or.inl ⟨e, by simp [get_group_info, hT, hG]⟩
      | ok v =>
        exact Or.inr ⟨"string", .str v, by simp [get_group_info, hT, hG], rfl, by simp⟩
    · by_cases h2 : kt = "hash"
      · subst h2
        cases hG : r.hgetall key with
        | error e => exact Or.inl ⟨e, by simp [get_group_info, hT, hG]⟩
        | ok v =>
          exact Or.inr ⟨"hash", .dict v, by simp [get_group_info, hT, hG], rfl, by simp⟩
      · by_cases h3 : kt = "list"
        · subst h3
          cases hG : r.lrange key with
          | error e => exact Or.inl ⟨e, by simp [get_group_info, hT, hG]⟩
          | ok v =>
            exact Or.inr ⟨"list", .list (v.map PyItem.s),
              by simp [get_group_info, hT, hG], rfl, by simp⟩
        · by_cases h4 : kt = "set"
          · subst h4
            cases hG : r.smembers key with
            | error e => exact Or.inl ⟨e, by simp [get_group_info, hT, hG]⟩
            | ok v =>
              exact Or.inr ⟨"set", .set v, by simp [get_group_info, hT, hG], rfl, by simp⟩
          · by_cases h5 : kt = "zset"
            · subst h5
              cases hG : r.zrange key with
              | error e => exact Or.inl ⟨e, by simp [get_group_info, hT, h1, h2, h3, h4, hG]⟩
              | ok v =>
                exact Or.inr ⟨"zset", .list (v.map fun p => PyItem.pair p.1 p.2),
                  by simp [get_group_info, hT, h1, h2, h3, h4, hG], rfl, by simp⟩
            · exact Or.inr ⟨kt, .str "Unknown type",
                by simp [get_group_info, hT, h1, h2, h3, h4, h5], rfl, Or.inr rfl⟩

/-! ## C3: the JSON pretty-printing heuristic of the renderer -/

/-- C3 counterexample: the string `" {}"` (leading space) is a valid JSON
object text — `json.loads` accepts it — yet the renderer prints it raw,
because no parse is attempted unless the *first* character is a brace or
bracket. -/
theorem c3_leading_space_counterexample :
    json_loads " \x7b\x7d" = some (JValue.obj [])
    ∧ renderStringValue " \x7b\x7d" = ["  Value:  \x7b\x7d"]
    ∧ renderStringValue " \x7b\x7d" ≠ ["Value (JSON):", json_dumps (JValue.obj [])] :=
  ⟨rfl, rfl, by decide⟩

/-- C3 amended: for a string whose *first character* is a brace or bracket
and that parses as JSON, the renderer prints the `Value (JSON):` header
and the `indent=2` pretty-printed form; if the first character is a brace
or bracket but the parse fails, the raw string is printed; for any other
first character no parse is attempted and the raw string is printed. -/
theorem c3_render_dispatch (s : String) (j : JValue) :
    ((pyStartsWith s lbrace || pyStartsWith s '[') = true →
      json_loads s = some j →
      renderStringValue s = ["Value (JSON):", json_dumps j])
    ∧ ((pyStartsWith s lbrace || pyStartsWith s '[') = true →
      json_loads s = none →
      renderStringValue s = ["  Value: " ++ s])
    ∧ ((pyStartsWith s lbrace || pyStartsWith s '[') = false →
      renderStringValue s = ["  Value: " ++ s]) := by
  refine ⟨fun hs hj => ?_, fun hs hj => ?_, fun hs => ?_⟩
  · simp [renderStringValue, hs, hj]
  · simp [renderStringValue, hs, hj]
  · simp [renderStringValue, hs]

/-- Witness for C3 at three concrete strings: valid JSON object text,
near-JSON text that fails to parse, and a plain string. -/
theorem c3_render_dispatch_witness :
    renderStringValue "\x7b\"a\": 1\x7d" =
      ["Value (JSON):", json_dumps (JValue.obj [("a", JValue.num "1")])]
    ∧ renderStringValue "\x7bnope" = ["  Value: " ++ "\x7bnope"]
    ∧ renderStringValue "hello" = ["  Value: " ++ "hello"] :=
  ⟨(c3_render_dispatch "\x7b\"a\": 1\x7d" (JValue.obj [("a", JValue.num "1")])).1 rfl rfl,
   (c3_render_dispatch "\x7bnope" JValue.null).2.1 rfl rfl,
   (c3_render_dispatch "hello" JValue.null).2.2 rfl⟩

/-! ## C9: dict semantics of the result mapping -/

/-- Updating an existing key in place never changes the key list. -/
lemma map_fst_update (d : List (String × GroupInfo)) (k : String) (v : GroupInfo) :
    (d.map (fun p => if p.1 = k then (k, v) else p)).map Prod.fst = d.map Prod.fst := by
  induction d with
  | nil => rfl
  | cons a d ih =>
    by_cases h : a.1 = k
    · simp [h, ih]
    · simp [h, ih]

/-- Dict insertion preserves distinctness of the keys. -/
lemma dictInsert_nodup (d : List (String × GroupInfo)) (k : String) (v : GroupInfo)
    (h : (d.map Prod.fst).Nodup) : ((dictInsert d k v).map Prod.fst).Nodup := by
  unfold dictInsert
  split
  · rw [map_fst_update]
    exact h
  · rename_i hany
    rw [List.map_append, List.nodup_append]
    refine ⟨h, by simp, fun a ha hk => ?_⟩
    rcases List.mem_map.1 ha with ⟨q, hq, rfl⟩
    have hq1 : q.1 = k := by simpa using hk
    exact hany (by rw [List.any_eq_true]; exact ⟨q, hq, by simp [hq1]⟩)

/-- Dict insertion preserves any entrywise property satisfied by the
inserted pair. -/
lemma dictInsert_pred (P : String × GroupInfo → Prop) (d : List (String × GroupInfo))
    (k : String) (v : GroupInfo) (hd : ∀ p ∈ d, P p) (hv : P (k, v)) :
    ∀ p ∈ dictInsert d k v, P p := by
  unfold dictInsert
  split
  · intro p hp
    rcases List.mem_map.1 hp with ⟨q, hq, rfl⟩
    by_cases h : q.1 = k
    · simpa [h] using hv
    · simpa [h] using hd q hq
  · intro p hp
    rcases List.mem_append.1 hp with h | h
    · exact hd p h
    · rcases List.mem_singleton.1 h with rfl
      exact hv

/-- The fetch loop over the keys of one pattern preserves key distinctness. -/
lemma foldl_dictInsert_nodup (r : Redis) (keys : List String) :
    ∀ d, (d.map Prod.fst).Nodup →
      (((keys.foldl (fun all key => dictInsert all key (get_group_info r key)) d).map
        Prod.fst).Nodup) := by
  induction keys with
  | nil => intro d h; simpa using h
  | cons a keys ih => intro d h; exact ih _ (dictInsert_nodup _ _ _ h)

/-- The fetch loop only ever stores the fetch result of the entry's own key. -/
lemma foldl_dictInsert_pred (r : Redis) (keys : List String) :
    ∀ d, (∀ p ∈ d, p.2 = get_group_info r p.1) →
      ∀ p ∈ keys.foldl (fun all key => dictInsert all key (get_group_info r key)) d,
        p.2 = get_group_info r p.1 := by
  induction keys with
  | nil => intro d h; simpa using h
  | cons a keys ih =>
    intro d h
    exact ih _ (dictInsert_pred (fun p => p.2 = get_group_info r p.1) d a _ h rfl)

/-- One scan iteration preserves key distinctness of the mapping. -/
lemma processPattern_nodup (r : Redis) (st : List String × List (String × GroupInfo))
    (p : String) (h : (st.2.map Prod.fst).Nodup) :
    (((processPattern r st p).2).map Prod.fst).Nodup := by
  rw [processPattern_snd]
  split
  · exact h
  · exact foldl_dictInsert_nodup r _ _ h

/-- One scan iteration preserves the entry/fetch correspondence. -/
lemma processPattern_pred (r : Redis) (st : List String × List (String × GroupInfo))
    (p : String) (h : ∀ q ∈ st.2, q.2 = get_group_info r q.1) :
    ∀ q ∈ (processPattern r st p).2, q.2 = get_group_info r q.1 := by
  rw [processPattern_snd]
  split
  · exact h
  · exact foldl_dictInsert_pred r _ _ h

/-- The whole scan preserves key distinctness of the mapping. -/
lemma query_groups_from_nodup (r : Redis) (ps : List String) :
    ∀ st : List String × List (String × GroupInfo), (st.2.map Prod.fst).Nodup →
      (((query_groups_from r ps st).2).map Prod.fst).Nodup := by
  induction ps with
  | nil => intro st h; simpa [query_groups_from] using h
  | cons p ps ih =>
    intro st h
    simp only [query_groups_from, List.foldl_cons]
    exact ih _ (processPattern_nodup r st p h)

/-- The whole scan preserves the entry/fetch correspondence. -/
lemma query_groups_from_pred (r : Redis) (ps : List String) :
    ∀ st : List String × List (String × GroupInfo),
      (∀ q ∈ st.2, q.2 = get_group_info r q.1) →
      ∀ q ∈ (query_groups_from r ps st).2, q.2 = get_group_info r q.1 := by
  induction ps with
  | nil => intro st h; simpa [query_groups_from] using h
  | cons p ps ih =>
    intro st h
    simp only [query_groups_from, List.foldl_cons]
    exact ih _ (processPattern_pred r st p h)

/-- Looking up a key that was just overwritten finds the new value. -/
lemma lookup_map_update (d : List (String × GroupInfo)) (k : String) (v : GroupInfo)
    (h : ∃ q ∈ d, q.1 = k) :
    (d.map (fun p => if p.1 = k then (k, v) else p)).lookup k = some v := by
  induction d with
  | nil => exact absurd h (by simp)
  | cons p t ih =>
    obtain ⟨p1, p2⟩ := p
    rw [List.map_cons]
    dsimp only
    by_cases hp : p1 = k
    · rw [if_pos hp]
      simp [List.lookup]
    · rw [if_neg hp]
      have h2 : ∃ q ∈ t, q.1 = k := by
        rcases h with ⟨q, hq, hqk⟩
        rcases List.mem_cons.1 hq with rfl | hmem
        · exact absurd hqk hp
        · exact ⟨q, hmem, hqk⟩
      have hne : (k == p1) = false := by
        simp only [beq_eq_false_iff_ne, ne_eq]
        exact fun hkp => hp hkp.symm
      simp [List.lookup, hne, ih h2]

/-- Looking up a freshly appended key finds its value. -/
lemma lookup_append_new (d : List (String × GroupInfo)) (k : String) (v : GroupInfo)
    (h : ∀ q ∈ d, q.1 ≠ k) :
    (d ++ [(k, v)]).lookup k = some v := by
  induction d with
  | nil => simp [List.lookup]
  | cons p t ih =>
    obtain ⟨p1, p2⟩ := p
    have hp : p1 ≠ k := h (p1, p2) (by simp)
    have hne : (k == p1) = false := by
      simp only [beq_eq_false_iff_ne, ne_eq]
      exact fun hkp => hp hkp.symm
    rw [List.cons_append]
    simp [List.lookup, hne, ih fun q hq => h q (List.mem_cons_of_mem _ hq)]

/-- Python-dict assignment semantics: after an insertion, looking the key
up yields exactly the inserted value. -/
lemma dictInsert_lookup (d : List (String × GroupInfo)) (k : String) (v : GroupInfo) :
    (dictInsert d k v).lookup k = some v := by
  unfold dictInsert
  split
  · rename_i hany
    apply lookup_map_update
    rw [List.any_eq_true] at hany
    rcases hany with ⟨q, hq, hqk⟩
    exact ⟨q, hq, by simpa using hqk⟩
  · rename_i hany
    apply lookup_append_new
    intro q hq hqk
    exact hany (by rw [List.any_eq_true]; exact ⟨q, hq, by simp [hqk]⟩)

/-- C9: the result mapping holds each key at most once; every entry is the
fetch result for its own key; and re-inserting a key overwrites the
earlier value, the lookup yielding the most recent one. -/
theorem c9_mapping_per_key (r : Redis) (ps : List String) :
    (((query_groups r ps).2).map Prod.fst).Nodup
    ∧ (∀ k gi, (k, gi) ∈ (query_groups r ps).2 → gi = get_group_info r k)
    ∧ (∀ d k v1 v2, (dictInsert (dictInsert d k v1) k v2).lookup k = some v2) := by
  refine ⟨query_groups_from_nodup r ps ([], []) (by simp), fun k gi hmem => ?_,
    fun d k v1 v2 => dictInsert_lookup _ _ _⟩
  exact query_groups_from_pred r ps ([], []) (by simp) (k, gi) hmem

/-- Witness for C9: a key matched by two patterns still appears once, and
its entry is its fetch result. -/
theorem c9_mapping_per_key_witness :
    (((query_groups rW ["a:*", "*:k"]).2).map Prod.fst).Nodup
    ∧ GroupInfo.tagged "string" (PyValue.str "v") = get_group_info rW "a:k" :=
  ⟨(c9_mapping_per_key rW ["a:*", "*:k"]).1,
   (c9_mapping_per_key rW ["a:*", "*:k"]).2.1 "a:k"
     (GroupInfo.tagged "string" (PyValue.str "v")) (by decide)⟩

/-! ## C1: error entries and the display pass -/

/-- C1: the first half of the claim holds — the scan is not aborted and
the mapping carries the error entry with the captured message — but the
display pass does not complete: `print(f"Type: {info['type']}")` runs
before the `'error' in info` check, and the error dict has no `'type'`
key, so the run dies with `KeyError: 'type'` and the other key `group:b`
is never displayed. -/
theorem c1_error_entry_stops_display :
    (query_groups rC1 defaultPatterns).2 =
      [("group:a", GroupInfo.error "boom"),
       ("group:b", GroupInfo.tagged "string" (PyValue.str "x"))]
    ∧ (mainProg rC1 "localhost" "6379" []).2 = some "KeyError: \x27type\x27"
    ∧ "\nKey: group:b" ∉ (mainProg rC1 "localhost" "6379" []).1 :=
  ⟨rfl, rfl, by decide⟩
